import Mathlib

/-!
Shallow embedding of the slide-narration / retrieval backend
(`backend/services/ai.py`, `backend/rag.py`, `backend/services/translation.py`,
`backend/routes/narration.py`, `backend/routes/qa.py`).

Python strings are modelled as Lean `String` (a list of characters), Python
floats as exact rationals `ℚ`, Python `None`-able results as `Option`.
External network collaborators (translation providers, the embedding
provider) are modelled as explicit oracle parameters.
-/

/-- Python `str.strip()`: remove leading and trailing whitespace characters. -/
def pyStrip (s : String) : String :=
  ⟨((s.data.dropWhile Char.isWhitespace).reverse.dropWhile Char.isWhitespace).reverse⟩

/-- Python string falsiness after stripping: every character is whitespace. -/
def isBlank (s : String) : Bool := s.data.all Char.isWhitespace

/-- Helper for `pyWords`: accumulate the current word (reversed) while
walking the characters. -/
def wordsAux (cur : List Char) : List Char → List (List Char)
  | [] => if cur.isEmpty then [] else [cur.reverse]
  | c :: rest =>
    if c.isWhitespace then
      if cur.isEmpty then wordsAux [] rest else cur.reverse :: wordsAux [] rest
    else wordsAux (c :: cur) rest

/-- Python `str.split()` with no argument: whitespace-separated words,
empty pieces dropped. -/
def pyWords (s : String) : List String := (wordsAux [] s.data).map fun l => ⟨l⟩

/-- Python `str.lower()` (ASCII approximation). -/
def pyLower (s : String) : String := ⟨s.data.map Char.toLower⟩

/-- Python slicing `s[:n]` on a string. -/
def pyTake (n : ℕ) (s : String) : String := ⟨s.data.take n⟩

/-- Python `len` on a string (number of characters). -/
def pyLen (s : String) : ℕ := s.data.length

/-- Boolean list-prefix test on character lists. -/
def leadsWith : List Char → List Char → Bool
  | [], _ => true
  | _ :: _, [] => false
  | a :: as, b :: bs => a == b && leadsWith as bs

/-- Boolean substring test: does `pat` occur inside the second list? -/
def hasSub (pat : List Char) : List Char → Bool
  | [] => pat.isEmpty
  | c :: rest => leadsWith pat (c :: rest) || hasSub pat rest

/-- Python `pat in s` substring containment. -/
def strContains (s pat : String) : Bool := hasSub pat.data s.data

/-- Python `str.isupper()` (ASCII approximation): at least one cased
character and no lowercase character. -/
def pyIsUpper (s : String) : Bool :=
  s.data.any Char.isUpper && s.data.all (fun c => !c.isLower)

/-- Helper for `pyIsTitle`: walk the characters tracking whether the previous
character was cased and whether any cased character was seen. -/
def titleAux : List Char → Bool → Bool → Bool
  | [], _, seen => seen
  | c :: rest, prevCased, seen =>
    if c.isUpper then !prevCased && titleAux rest true true
    else if c.isLower then prevCased && titleAux rest true true
    else titleAux rest false seen

/-- Python `str.istitle()` (ASCII approximation): uppercase letters only
follow uncased characters, lowercase letters only follow cased ones, and at
least one cased character occurs. -/
def pyIsTitle (s : String) : Bool := titleAux s.data false false

/-- Python `str.endswith` for a single character. -/
def strEndsWith (s : String) (c : Char) : Bool := s.data.getLast? == some c

/-- The bullet prefixes recognised by `_analyze_slide_structure`. -/
def bulletGlyphs : List Char := ['•', '-', '*', '◦', '▪', '▫']

/-- The regex `^\d+[\.\)]\s+` of `_analyze_slide_structure`: on a match,
return the remainder of the line after the numeric prefix (one or more
digits, a dot or closing parenthesis, one or more whitespace characters,
consumed greedily as `re.sub` does). -/
def parseNumbered (l : List Char) : Option (List Char) :=
  match l with
  | [] => none
  | c :: _ =>
    if !c.isDigit then none
    else
      match l.dropWhile Char.isDigit with
      | [] => none
      | d :: rest =>
        if !(d = '.' || d = ')') then none
        else
          match rest with
          | [] => none
          | e :: _ =>
            if !e.isWhitespace then none
            else some (rest.dropWhile Char.isWhitespace)

/-- The category a single content line falls into, together with the text
that is recorded for it.  `dropped` marks a line whose cleaned text is empty
and which is therefore recorded nowhere. -/
inductive LineClass where
  | bullet (t : String)
  | heading (t : String)
  | numbered (t : String)
  | shortBullet (t : String)
  | paragraph (t : String)
  | dropped
deriving DecidableEq, Repr

/-- Classification of one (already stripped, non-empty) content line by
`_analyze_slide_structure` (ai.py lines 61-80), mirroring the `if`/`elif`
chain of the source: bullet glyph, then heading, then numbered list, then
short line, then paragraph. -/
def classifyLine (line : String) : LineClass :=
  if bulletGlyphs.any (fun g => line.data.head? == some g) then
    let clean := pyStrip ⟨line.data.dropWhile (fun c => bulletGlyphs.contains c || c.isWhitespace)⟩
    if clean = "" then .dropped else .bullet clean
  else if pyLen line < 80 && (pyIsUpper line || pyIsTitle line) then
    .heading line
  else
    match parseNumbered line.data with
    | some rest =>
      let clean := pyStrip ⟨rest⟩
      if clean = "" then .dropped else .numbered clean
    | none =>
      if (pyWords line).length ≤ 8 && !strEndsWith line '.' && !strEndsWith line ':' then
        .shortBullet line
      else
        .paragraph line

/-- The category lists built by `_analyze_slide_structure` (the `elements`
dict, minus the title). -/
structure SlideElements where
  bullet_points : List String
  headings : List String
  lists : List String
  paragraphs : List String
deriving DecidableEq, Repr

/-- Record one classified line in the elements record.  Short unmarked lines
are appended to `bullet_points`, exactly as in the source. -/
def addLine (e : SlideElements) (line : String) : SlideElements :=
  match classifyLine line with
  | .bullet t => { e with bullet_points := e.bullet_points ++ [t] }
  | .heading t => { e with headings := e.headings ++ [t] }
  | .numbered t => { e with lists := e.lists ++ [t] }
  | .shortBullet t => { e with bullet_points := e.bullet_points ++ [t] }
  | .paragraph t => { e with paragraphs := e.paragraphs ++ [t] }
  | .dropped => e

/-- Fold the classification pass over a list of lines. -/
def analyzeLines (lines : List String) : SlideElements :=
  lines.foldl addLine ⟨[], [], [], []⟩

/-- Python `content.split(newline)`: split a character list at newline
characters, keeping empty pieces. -/
def splitLinesAux (cur : List Char) : List Char → List (List Char)
  | [] => [cur.reverse]
  | c :: rest =>
    if c = '\n' then cur.reverse :: splitLinesAux [] rest
    else splitLinesAux (c :: cur) rest

/-- The non-empty stripped lines of a slide's content, as extracted on
ai.py line 50. -/
def nonEmptyLines (content : String) : List String :=
  ((splitLinesAux [] content.data).map fun l => pyStrip ⟨l⟩).filter (fun l => l != "")

/-- The classification pass of `_analyze_slide_structure` over a slide's raw
content (English path: no translation is applied). -/
def analyze_slide_structure (content : String) : SlideElements :=
  analyzeLines (nonEmptyLines (pyStrip content))

/-- Total number of elements recorded in all categories. -/
def elemCount (e : SlideElements) : ℕ :=
  e.bullet_points.length + e.headings.length + e.lists.length + e.paragraphs.length

/-- Spec-side rule: a line beginning with a bullet glyph (claim C1, "bullet
glyph" rule); the glyph prefix is stripped. -/
def ruleBullet (line : String) : Option LineClass :=
  if bulletGlyphs.any (fun g => line.data.head? == some g) then
    let clean := pyStrip ⟨line.data.dropWhile (fun c => bulletGlyphs.contains c || c.isWhitespace)⟩
    some (if clean = "" then .dropped else .bullet clean)
  else none

/-- Spec-side rule: a numbered-item prefix, `N.` or `N)` followed by text,
with the prefix stripped (claim C1). -/
def ruleNumbered (line : String) : Option LineClass :=
  match parseNumbered line.data with
  | some rest =>
    let clean := pyStrip ⟨rest⟩
    some (if clean = "" then .dropped else .numbered clean)
  | none => none

/-- Spec-side rule: a heading is a line of fewer than 80 characters that is
fully upper-case or title-case (claim C1). -/
def ruleHeading (line : String) : Option LineClass :=
  if pyLen line < 80 && (pyIsUpper line || pyIsTitle line) then some (.heading line) else none

/-- Spec-side rule: a short-line bullet has at most 8 words and does not end
in a period or colon (claim C1). -/
def ruleShort (line : String) : Option LineClass :=
  if (pyWords line).length ≤ 8 && !strEndsWith line '.' && !strEndsWith line ':' then
    some (.shortBullet line)
  else none

/-- Classifier written from claim C1's words, first matching rule wins, in
the order the claim lists: bullet glyph, numbered item, heading, short-line
bullet, paragraph. -/
def claimOrderClassify (line : String) : LineClass :=
  ((ruleBullet line).orElse fun _ =>
    (ruleNumbered line).orElse fun _ =>
      (ruleHeading line).orElse fun _ =>
        ruleShort line).getD (.paragraph line)

/-- Classifier with the rule order the code actually uses: bullet glyph,
heading, numbered item, short-line bullet, paragraph. -/
def codeOrderClassify (line : String) : LineClass :=
  ((ruleBullet line).orElse fun _ =>
    (ruleHeading line).orElse fun _ =>
      (ruleNumbered line).orElse fun _ =>
        ruleShort line).getD (.paragraph line)

/-- One narration part handed to `_create_synchronized_segments`: its kind
tag (`"title"`, `"heading"`, `"bullet"`, `"list"` or `"paragraph"`), its
rendered text and its source element. -/
structure NPart where
  type : String
  text : String
  element : String
deriving DecidableEq, Repr

/-- One synchronized playback segment, as built on ai.py lines 277-285.
Times are exact rationals standing for the Python floats. -/
structure Segment where
  text : String
  start_time : ℚ
  duration : ℚ
  end_time : ℚ
  highlight_text : String
  type : String
  language : String
deriving DecidableEq, Repr

/-- The `words_per_minute` table of `_create_synchronized_segments`. -/
def wpmTable : List (String × ℕ) :=
  [("en", 150), ("hi", 140), ("es", 160), ("fr", 155), ("de", 145),
   ("it", 160), ("pt", 155), ("ru", 140), ("ja", 130), ("ko", 140),
   ("zh", 130), ("ar", 135), ("nl", 150), ("sv", 150), ("no", 150),
   ("da", 150), ("fi", 140), ("pl", 140), ("tr", 145), ("th", 130), ("vi", 140)]

/-- `words_per_minute.get(language, 150)`. -/
def wpm (language : String) : ℕ := (wpmTable.lookup language).getD 150

/-- Per-part duration: `max(1, word_count * 60/wpm)` plus the fixed pause
bonus chosen by the part's kind (ai.py lines 262-275). -/
def segDuration (language : String) (p : NPart) : ℚ :=
  let base : ℚ := max 1 (((pyWords p.text).length : ℚ) * (60 / (wpm language : ℚ)))
  base +
    (if p.type = "title" then 1
     else if p.type = "heading" then 1/2
     else if p.type = "bullet" then 3/10
     else if p.type = "list" then 2/5
     else 0)

/-- Build the segment for one part at clock time `t`. -/
def mkSeg (language : String) (t : ℚ) (p : NPart) : Segment :=
  { text := p.text
    start_time := t
    duration := segDuration language p
    end_time := t + segDuration language p
    highlight_text := p.element
    type := p.type
    language := language }

/-- The running-clock loop of `_create_synchronized_segments`. -/
def createAux (language : String) : List NPart → ℚ → List Segment
  | [], _ => []
  | p :: rest, t => mkSeg language t p :: createAux language rest (t + segDuration language p)

/-- `_create_synchronized_segments(narration_parts, slide_structure, language)`
(the `slide_structure` argument is unused by the source). -/
def create_synchronized_segments (parts : List NPart) (language : String) : List Segment :=
  createAux language parts 0

/-- The text blob built for one slide (title, content) by `build_corpus`:
stripped title, newline, stripped content (rag.py line 17). -/
def slideDoc (p : String × String) : String := pyStrip p.1 ++ "\n" ++ pyStrip p.2

/-- The text blob built for one QA record (question, answer). -/
def qaDoc (p : String × String) : String := "Q: " ++ pyStrip p.1 ++ "\nA: " ++ pyStrip p.2

/-- `build_corpus(slides, qa_logs)` from rag.py: slides and QA records are
pairs of raw (title, content) and (question, answer) strings. -/
def build_corpus (slides qa_logs : List (String × String)) : List String :=
  (slides.filterMap fun p => if pyStrip (slideDoc p) = "" then none else some (slideDoc p)) ++
  (qa_logs.filterMap fun p =>
    if pyStrip p.1 = "" ∧ pyStrip p.2 = "" then none else some (qaDoc p))

/-- Similarity score of document `i` (cosine similarity against the query,
delivered by the external embedding provider). -/
def simScore (sims : List ℚ) (i : ℕ) : ℚ := sims.getD i 0

/-- The total order `np.argsort` sorts document indices by: ascending score,
ties by ascending index (numpy's argsort is stable on these inputs). -/
def rankLE (sims : List ℚ) (i j : ℕ) : Prop :=
  simScore sims i < simScore sims j ∨ (simScore sims i = simScore sims j ∧ i ≤ j)

instance rankLE.decRel (sims : List ℚ) : DecidableRel (rankLE sims) := fun i j => by
  unfold rankLE; exact inferInstance

instance rankLE.total (sims : List ℚ) : IsTotal ℕ (rankLE sims) := by
  constructor
  intro i j
  rcases lt_trichotomy (simScore sims i) (simScore sims j) with h | h | h
  · exact Or.inl (Or.inl h)
  · rcases Nat.le_total i j with hij | hij
    · exact Or.inl (Or.inr ⟨h, hij⟩)
    · exact Or.inr (Or.inr ⟨h.symm, hij⟩)
  · exact Or.inr (Or.inl h)

instance rankLE.trans (sims : List ℚ) : IsTrans ℕ (rankLE sims) := by
  constructor
  intro i j k hij hjk
  rcases hij with h1 | ⟨h1, h1'⟩ <;> rcases hjk with h2 | ⟨h2, h2'⟩
  · exact Or.inl (h1.trans h2)
  · exact Or.inl (h2 ▸ h1)
  · exact Or.inl (h1 ▸ h2)
  · exact Or.inr ⟨h1.trans h2, h1'.trans h2'⟩

/-- `np.argsort(sims)`: document indices in ascending score order, ties by
ascending index. -/
def argsortAsc (sims : List ℚ) : List ℕ :=
  List.insertionSort (rankLE sims) (List.range sims.length)

/-- `top_k_contexts(query, docs, k)` from rag.py.  The external embedding
step is abstracted by `simres`: `some sims` is the per-document cosine
similarity vector of the success path, `none` means the provider or the
similarity computation was unavailable or threw (the `except` branch). -/
def top_k_contexts (simres : Option (List ℚ)) (docs : List String) (k : ℕ) :
    List (ℕ × ℚ × String) :=
  if docs.isEmpty then []
  else
    match simres with
    | some sims =>
      (((argsortAsc sims).reverse).take k).map fun i => (i, simScore sims i, docs.getD i "")
    | none => (docs.enum.take k).map fun p => (p.1, (0 : ℚ), p.2)

/-- The Devanagari characters used by `detect_language` for Hindi detection. -/
def hindiChars : List Char :=
  "अआइईउऊऋएऐओऔकखगघङचछजझञटठडढणतथदधनपफबभमयरलवशषसह".data

/-- Spanish marker words of `detect_language` (checked as substrings). -/
def spanishWords : List String :=
  ["el", "la", "de", "que", "y", "a", "en", "un", "es", "se", "no", "te", "lo", "le",
   "da", "su", "por", "son", "con", "para", "al", "del", "los", "las"]

/-- French marker words of `detect_language`. -/
def frenchWords : List String :=
  ["le", "la", "de", "et", "à", "un", "une", "est", "que", "pour", "dans", "ce", "il",
   "une", "sur", "avec", "ne", "se", "pas", "tout", "mais", "son", "ses"]

/-- German marker words of `detect_language`. -/
def germanWords : List String :=
  ["der", "die", "das", "und", "in", "den", "von", "zu", "dem", "mit", "sich", "des",
   "auf", "für", "ist", "im", "an", "als", "auch", "eine", "ein", "nach", "wie", "oder",
   "aber", "vor", "aus", "bei", "nur", "durch", "um", "am", "zur", "noch", "mehr",
   "wenn", "über", "so", "sie", "kann", "alle", "wird", "sind", "hat", "haben",
   "können", "müssen", "soll", "will"]

/-- `TranslationService.detect_language` (translation.py lines 61-88):
heuristic, substring-based language detection. -/
def detect_language (text : String) : String :=
  if pyLen (pyStrip text) < 3 then "en"
  else
    let lower := pyLower text
    if text.data.any (fun c => hindiChars.contains c) then "hi"
    else if spanishWords.any (fun w => strContains lower w) then "es"
    else if frenchWords.any (fun w => strContains lower w) then "fr"
    else if germanWords.any (fun w => strContains lower w) then "de"
    else "en"

/-- One call to `TranslationService.translate_text` (translation.py lines
90-137), with the process-wide `translation_cache` made explicit as an
association list from cache-key strings to cached translations.  The chain
of external providers is abstracted by `provider (text, source, target)`:
`some t` is the first truthy provider response, `none` means every provider
failed or returned a falsy value.  The md5 hashing of the cache key is
dropped: two calls share a cache slot exactly when their joined
`text_source_target` strings — and hence their md5 digests — coincide.
Returns the translation together with the updated cache. -/
def translate_call (provider : String → String → String → Option String)
    (cache : List (String × String)) (text target source : String) :
    String × List (String × String) :=
  if isBlank text then (text, cache)
  else
    let key := text ++ "_" ++ source ++ "_" ++ target
    match cache.lookup key with
    | some v => (v, cache)
    | none =>
      let src := if source = "auto" then detect_language text else source
      if src = target then (text, cache)
      else
        let t :=
          match provider text src target with
          | some s => if s = "" then "[" ++ target ++ "] " ++ text else s
          | none => "[" ++ target ++ "] " ++ text
        (t, (key, t) :: cache)

/-- `translate_text` in a fresh process (empty cache), result only. -/
def translate_text (provider : String → String → String → Option String)
    (text target source : String) : String :=
  (translate_call provider [] text target source).1

/-- Keyword sets of `_classify_question_type` (ai.py lines 475-488). -/
def whatWords : List String := ["what", "क्या", "qué", "que", "was", "qu\x27est-ce"]

/-- Keywords of the "how" category. -/
def howWords : List String := ["how", "कैसे", "cómo", "comment", "wie"]

/-- Keywords of the "why" category. -/
def whyWords : List String := ["why", "क्यों", "por qué", "pourquoi", "warum"]

/-- Keywords of the "explain" category. -/
def explainWords : List String :=
  ["explain", "describe", "समझाएं", "वर्णन", "explicar", "décrire", "erklären"]

/-- `_classify_question_type(question)`: keyword substring matching on the
lower-cased question, default category "general". -/
def classify_question_type (question : String) : String :=
  let ql := pyLower question
  if whatWords.any (fun w => strContains ql w) then "what"
  else if howWords.any (fun w => strContains ql w) then "how"
  else if whyWords.any (fun w => strContains ql w) then "why"
  else if explainWords.any (fun w => strContains ql w) then "explain"
  else "general"

/-- Python `str.format(title=…, content=…)` on templates: one left-to-right
pass replacing the placeholders `\x7btitle\x7d` and `\x7bcontent\x7d`. -/
def formatAux (t c : List Char) : ℕ → List Char → List Char
  | _, [] => []
  | 0, l => l
  | n + 1, x :: xs =>
    if leadsWith "\x7btitle\x7d".data (x :: xs) then t ++ formatAux t c n (xs.drop 6)
    else if leadsWith "\x7bcontent\x7d".data (x :: xs) then
      c ++ formatAux t c n (xs.drop 8)
    else x :: formatAux t c n xs

/-- String-level wrapper for `formatAux`: the fuel equals the character
count, which each step strictly consumes, so the fuel never runs out. -/
def pyFormat2 (s t c : String) : String :=
  ⟨formatAux t.data c.data s.data.length s.data⟩

/-- The English answer templates of `_get_answer_templates` (ai.py). -/
def en_tpl (q : String) : String :=
  if q = "what" then "Based on slide \x27\x7btitle\x7d\x27: \x7bcontent\x7d"
  else if q = "how" then
    "According to slide \x27\x7btitle\x7d\x27, here\x27s how it works: \x7bcontent\x7d"
  else if q = "why" then "Slide \x27\x7btitle\x7d\x27 explains why: \x7bcontent\x7d"
  else if q = "explain" then "This slide \x27\x7btitle\x7d\x27 explains:\n\x7bcontent\x7d"
  else "From slide \x27\x7btitle\x7d\x27:\n\x7bcontent\x7d"

/-- The Hindi answer templates. -/
def hi_tpl (q : String) : String :=
  if q = "what" then "स्लाइड \x27\x7btitle\x7d\x27 के अनुसार: \x7bcontent\x7d"
  else if q = "how" then "स्लाइड \x27\x7btitle\x7d\x27 के अनुसार, यह कैसे काम करता है: \x7bcontent\x7d"
  else if q = "why" then "स्लाइड \x27\x7btitle\x7d\x27 बताती है कि क्यों: \x7bcontent\x7d"
  else if q = "explain" then "यह स्लाइड \x27\x7btitle\x7d\x27 समझाती है:\n\x7bcontent\x7d"
  else "स्लाइड \x27\x7btitle\x7d\x27 से:\n\x7bcontent\x7d"

/-- The Spanish answer templates. -/
def es_tpl (q : String) : String :=
  if q = "what" then "Según la diapositiva \x27\x7btitle\x7d\x27: \x7bcontent\x7d"
  else if q = "how" then
    "Según la diapositiva \x27\x7btitle\x7d\x27, así es como funciona: \x7bcontent\x7d"
  else if q = "why" then "La diapositiva \x27\x7btitle\x7d\x27 explica por qué: \x7bcontent\x7d"
  else if q = "explain" then "Esta diapositiva \x27\x7btitle\x7d\x27 explica:\n\x7bcontent\x7d"
  else "De la diapositiva \x27\x7btitle\x7d\x27:\n\x7bcontent\x7d"

/-- The French answer templates. -/
def fr_tpl (q : String) : String :=
  if q = "what" then "Selon la diapositive \x27\x7btitle\x7d\x27: \x7bcontent\x7d"
  else if q = "how" then
    "Selon la diapositive \x27\x7btitle\x7d\x27, voici comment cela fonctionne: \x7bcontent\x7d"
  else if q = "why" then "La diapositive \x27\x7btitle\x7d\x27 explique pourquoi: \x7bcontent\x7d"
  else if q = "explain" then "Cette diapositive \x27\x7btitle\x7d\x27 explique:\n\x7bcontent\x7d"
  else "De la diapositive \x27\x7btitle\x7d\x27:\n\x7bcontent\x7d"

/-- The German answer templates. -/
def de_tpl (q : String) : String :=
  if q = "what" then "Basierend auf Folie \x27\x7btitle\x7d\x27: \x7bcontent\x7d"
  else if q = "how" then "Laut Folie \x27\x7btitle\x7d\x27 funktioniert es so: \x7bcontent\x7d"
  else if q = "why" then "Folie \x27\x7btitle\x7d\x27 erklärt warum: \x7bcontent\x7d"
  else if q = "explain" then "Diese Folie \x27\x7btitle\x7d\x27 erklärt:\n\x7bcontent\x7d"
  else "Von Folie \x27\x7btitle\x7d\x27:\n\x7bcontent\x7d"

/-- `_get_answer_templates(language, tone)` specialised to one question
category: built-in table for en/hi/es/fr/de, otherwise the English template
is passed through the Translation collaborator (the `tone` argument is
ignored by the source). -/
def tplFor (provider : String → String → String → Option String)
    (language q : String) : String :=
  if language = "en" then en_tpl q
  else if language = "hi" then hi_tpl q
  else if language = "es" then es_tpl q
  else if language = "fr" then fr_tpl q
  else if language = "de" then de_tpl q
  else translate_text provider (en_tpl q) language "auto"

/-- `_generate_fallback_answer(title, content, language, tone)` (ai.py lines
491-507): a templated answer from the slide's own title and the first 400
characters of its content; unsupported languages translate the English
template (already filled). -/
def generate_fallback_answer (provider : String → String → String → Option String)
    (title content language : String) : String :=
  if language = "en" then "About \x27" ++ title ++ "\x27: " ++ pyTake 400 content
  else if language = "hi" then "\x27" ++ title ++ "\x27 के बारे में: " ++ pyTake 400 content
  else if language = "es" then "Acerca de \x27" ++ title ++ "\x27: " ++ pyTake 400 content
  else if language = "fr" then "À propos de \x27" ++ title ++ "\x27: " ++ pyTake 400 content
  else if language = "de" then "Über \x27" ++ title ++ "\x27: " ++ pyTake 400 content
  else
    translate_text provider ("About \x27" ++ title ++ "\x27: " ++ pyTake 400 content)
      language "auto"

/-- Python `sep.join(parts)`. -/
def joinSep (sep : String) : List String → String
  | [] => ""
  | [x] => x
  | x :: y :: rest => x ++ sep ++ joinSep sep (y :: rest)

/-- Python `x or y` for a possibly empty slide title. -/
def effTitle (title : String) : String := if title = "" then "this slide" else title

/-- The success path of `answer_question(question, slide, slides, language,
tone, qa_logs)` (ai.py lines 365-410).  `simres` abstracts the embedding
provider exactly as in `top_k_contexts`.  The question's language is
detected, the question translated to English for classification when
needed, the corpus is built and ranked with k = 3, the (language, question
category) template is filled with the slide title and the first 600
characters of the joined context, and the answer is translated back when
the detected language differs from the requested one.  The source's `tone`
argument is dropped here because `_get_answer_templates` ignores it. -/
def composed_answer (provider : String → String → String → Option String)
    (simres : Option (List ℚ)) (question slideTitle : String)
    (slides qa_logs : List (String × String)) (language : String) : String :=
  let detected := detect_language question
  let question_en :=
    if detected ≠ "en" then translate_text provider question "en" detected else question
  let docs := build_corpus slides qa_logs
  let contexts := top_k_contexts simres docs 3
  let ctx_text := joinSep "\n---\n" (contexts.map fun c => c.2.2)
  let qtype := classify_question_type question_en
  let base := pyFormat2 (tplFor provider language qtype) slideTitle (pyTake 600 ctx_text)
  if detected ≠ language then translate_text provider base language "en" else base

/-- `answer_question` (ai.py lines 365-420).  The slide is a (title,
content) pair; `ragExc` is true when the `try` block raises (import
failure, formatting error), in which case the source falls back to
`_generate_fallback_answer`; either way the result is truncated to 3000
characters.  The `tone` argument is accepted but, as in the source's
template dictionaries, never changes the text. -/
def answer_question (provider : String → String → String → Option String)
    (simres : Option (List ℚ)) (ragExc : Bool) (question : String)
    (slide : String × String) (slides qa_logs : List (String × String))
    (language tone : String) : String :=
  if ragExc then
    pyTake 3000 (generate_fallback_answer provider (effTitle slide.1) slide.2 language)
  else
    pyTake 3000
      (composed_answer provider simres question (effTitle slide.1) slides qa_logs language)

/-- The guard of `narrate_slide` (routes/narration.py line 26): the request
raises 404 exactly when `slide_index >= len(slides)`. -/
def narrate_rejects (slide_index : ℤ) (num_slides : ℕ) : Bool :=
  (num_slides : ℤ) ≤ slide_index

/-- The guard of `qa` (routes/qa.py line 21): 404 when the index is negative
or at least the slide count. -/
def qa_rejects (slide_index : ℤ) (num_slides : ℕ) : Bool :=
  slide_index < 0 || (num_slides : ℤ) ≤ slide_index

/-- Python list subscription `l[i]` with an integer index: negative indices
count from the end; `none` is an `IndexError`. -/
def pyIndex (l : List α) (i : ℤ) : Option α :=
  if 0 ≤ i then l.get? i.toNat
  else if 0 ≤ (l.length : ℤ) + i then l.get? ((l.length : ℤ) + i).toNat
  else none

/-- A line made of bullet glyphs and whitespace only (and starting with a
glyph, as a stripped non-empty glyph line does). -/
def glyphOnly (l : String) : Bool :=
  (match l.data.head? with
   | some c => bulletGlyphs.contains c
   | none => false) &&
  l.data.all (fun c => bulletGlyphs.contains c || c.isWhitespace)

/-- The source's classification chain coincides with first-match rule
application in the order bullet glyph, heading, numbered item, short line,
paragraph. -/
theorem classify_eq (line : String) : classifyLine line = codeOrderClassify line := by
  unfold classifyLine codeOrderClassify ruleBullet ruleHeading ruleNumbered ruleShort
  cases h : parseNumbered line.data <;> split_ifs <;>
    simp_all [Option.orElse, Option.getD]

/-- A glyph-and-whitespace-only line is recorded in no category. -/
theorem glyphOnly_dropped (l : String) (h : glyphOnly l = true) :
    classifyLine l = LineClass.dropped := by
  unfold glyphOnly at h
  rw [Bool.and_eq_true] at h
  obtain ⟨h1, h2⟩ := h
  unfold classifyLine
  have hb : bulletGlyphs.any (fun g => l.data.head? == some g) = true := by
    cases hh : l.data.head? with
    | none => rw [hh] at h1; simp at h1
    | some c =>
      rw [hh] at h1
      simp only [List.any_eq_true]
      refine ⟨c, List.mem_of_elem_eq_true h1, by simp⟩
  rw [if_pos hb]
  have hd : l.data.dropWhile (fun c => bulletGlyphs.contains c || c.isWhitespace) = [] := by
    rw [List.dropWhile_eq_nil_iff]
    intro x hx
    exact (List.all_eq_true.mp h2) x hx
  rw [hd]
  rfl

/-- Recording one line grows the element count by at most one. -/
theorem addLine_count (e : SlideElements) (l : String) :
    elemCount (addLine e l) ≤ elemCount e + 1 := by
  unfold addLine
  cases classifyLine l <;> simp [elemCount] <;> omega

/-- A dropped line leaves the record unchanged. -/
theorem addLine_dropped (e : SlideElements) (l : String)
    (h : classifyLine l = LineClass.dropped) : addLine e l = e := by
  unfold addLine
  rw [h]

/-- The classification pass records at most one element per line. -/
theorem analyzeLines_count_le (lines : List String) :
    ∀ e : SlideElements, elemCount (lines.foldl addLine e) ≤ elemCount e + lines.length := by
  induction lines with
  | nil => intro e; simp
  | cons x rest ih =>
    intro e
    calc elemCount ((x :: rest).foldl addLine e)
        = elemCount (rest.foldl addLine (addLine e x)) := rfl
      _ ≤ elemCount (addLine e x) + rest.length := ih _
      _ ≤ (elemCount e + 1) + rest.length := by have := addLine_count e x; omega
      _ = elemCount e + (x :: rest).length := by simp only [List.length_cons]; omega

/-- With a dropped member the element count is strictly below the line
count. -/
theorem analyzeLines_count_lt (lines : List String) (l : String)
    (hm : l ∈ lines) (hd : classifyLine l = LineClass.dropped) :
    ∀ e : SlideElements, elemCount (lines.foldl addLine e) < elemCount e + lines.length := by
  induction lines with
  | nil => cases hm
  | cons x rest ih =>
    intro e
    rcases List.mem_cons.mp hm with h | h
    · subst h
      calc elemCount ((l :: rest).foldl addLine e)
          = elemCount (rest.foldl addLine (addLine e l)) := rfl
        _ = elemCount (rest.foldl addLine e) := by rw [addLine_dropped e l hd]
        _ ≤ elemCount e + rest.length := analyzeLines_count_le rest e
        _ < elemCount e + (l :: rest).length := by simp only [List.length_cons]; omega
    · calc elemCount ((x :: rest).foldl addLine e)
          = elemCount (rest.foldl addLine (addLine e x)) := rfl
        _ < elemCount (addLine e x) + rest.length := ih h _
        _ ≤ (elemCount e + 1) + rest.length := by have := addLine_count e x; omega
        _ = elemCount e + (x :: rest).length := by simp only [List.length_cons]; omega


/-- Claim C1, counterexample to the rule order as stated.  The claim places
the numbered-item rule before the heading rule; the source checks headings
first (ai.py line 68 before line 71).  The title-case line
"1) Define Scope" matches both: the code classifies it as a heading, while
a first-match classifier in the claim's order returns a numbered item. -/
theorem C1_order_counterexample :
    classifyLine "1) Define Scope" = LineClass.heading "1) Define Scope" ∧
    claimOrderClassify "1) Define Scope" = LineClass.numbered "Define Scope" ∧
    classifyLine "1) Define Scope" ≠ claimOrderClassify "1) Define Scope" := by
  refine ⟨by decide, by decide, by decide⟩

/-- Claim C1 (amended): every non-empty trimmed line is classified by a
single first-matching rule, in the order bullet glyph, heading (< 80 chars
and upper- or title-case), numbered-item prefix, short-line bullet (at most
8 words, not ending in a period or colon), then paragraph; the line
"1) Define scope" is a numbered item with stripped text "Define scope". -/
theorem C1_first_match_classification (line : String) (h1 : line ≠ "")
    (h2 : pyStrip line = line) :
    classifyLine line = codeOrderClassify line ∧
    classifyLine "1) Define scope" = LineClass.numbered "Define scope" :=
  ⟨classify_eq line, by decide⟩

/-- Witness for C1 at the concrete stripped line "Launch Plan". -/
theorem C1_witness :
    classifyLine "Launch Plan" = codeOrderClassify "Launch Plan" ∧
    classifyLine "1) Define scope" = LineClass.numbered "Define scope" :=
  C1_first_match_classification "Launch Plan" (by decide) (by decide)

/-- Claim C9, counterexample: a line holding only a numeric prefix is not
silently dropped.  "1." matches no earlier rule, fails the short-line rule
because it ends in a period (the numbered regex requires whitespace after
the prefix, so it does not fire), and is therefore recorded as a paragraph
element: the slide structure for content "1." has exactly as many elements
as non-empty lines, not fewer. -/
theorem C9_numeric_counterexample :
    analyze_slide_structure "1." = ⟨[], [], [], ["1."]⟩ ∧
    elemCount (analyze_slide_structure "1.") = (nonEmptyLines (pyStrip "1.")).length := by
  refine ⟨by decide, by decide⟩

/-- Claim C9 (amended): a non-empty line of bullet glyphs and whitespace
only is silently dropped, so the total element count is strictly less than
the number of non-empty lines whenever such a line occurs; a bare numeric
prefix is not dropped — "1." becomes a paragraph and "1)" a short-line
bullet. -/
theorem C9_glyph_line_dropped :
    (∀ (lines : List String) (l : String), l ∈ lines → glyphOnly l = true →
      elemCount (analyzeLines lines) < lines.length) ∧
    classifyLine "•" = LineClass.dropped ∧
    classifyLine "1." = LineClass.paragraph "1." ∧
    classifyLine "1)" = LineClass.shortBullet "1)" := by
  refine ⟨?_, by decide, by decide, by decide⟩
  intro lines l hm hg
  have := analyzeLines_count_lt lines l hm (glyphOnly_dropped l hg) ⟨[], [], [], []⟩
  simpa [analyzeLines, elemCount] using this

/-- Witness for C9 on the concrete content lines ["•", "Alpha beta"]. -/
theorem C9_witness : elemCount (analyzeLines ["•", "Alpha beta"]) < 2 :=
  C9_glyph_line_dropped.1 ["•", "Alpha beta"] "•" (by decide) (by decide)

/-- Every emitted segment satisfies `end_time = start_time + duration`. -/
theorem createAux_end (language : String) :
    ∀ (parts : List NPart) (t : ℚ) (s : Segment), s ∈ createAux language parts t →
      s.end_time = s.start_time + s.duration := by
  intro parts
  induction parts with
  | nil => intro t s h; cases h
  | cons p rest ih =>
    intro t s h
    rcases List.mem_cons.mp h with h | h
    · subst h; rfl
    · exact ih _ s h

/-- The first segment emitted from clock time `t` starts at `t`. -/
theorem createAux_head (language : String) (parts : List NPart) (t : ℚ) :
    ∀ s ∈ (createAux language parts t).head?, s.start_time = t := by
  cases parts with
  | nil => intro s h; cases h
  | cons p rest =>
    intro s h
    have hs : mkSeg language t p = s := by simpa [createAux] using h
    rw [← hs]
    rfl

/-- Consecutive segments chain: each start time equals the previous end
time. -/
theorem createAux_chain (language : String) :
    ∀ (parts : List NPart) (t : ℚ),
      List.Chain' (fun a b => b.start_time = a.end_time) (createAux language parts t) := by
  intro parts
  induction parts with
  | nil => intro t; exact List.chain'_nil
  | cons p rest ih =>
    intro t
    rw [createAux, List.chain'_cons']
    refine ⟨?_, ih _⟩
    intro y hy
    have := createAux_head language rest (t + segDuration language p) y hy
    rw [this]
    rfl

/-- `getLast?` of a cons with a non-empty tail is `getLast?` of the tail. -/
theorem getLast?_cons_ne {α : Type} (a : α) (l : List α) (h : l ≠ []) :
    (a :: l).getLast? = l.getLast? := by
  cases l with
  | nil => cases h rfl
  | cons b t => exact List.getLast?_cons_cons

/-- The last segment ends at the start clock plus the sum of all emitted
durations. -/
theorem createAux_last (language : String) :
    ∀ (parts : List NPart) (t : ℚ),
      ∀ s ∈ (createAux language parts t).getLast?,
        s.end_time = t + ((createAux language parts t).map Segment.duration).sum := by
  intro parts
  induction parts with
  | nil => intro t s h; cases h
  | cons p rest ih =>
    intro t s h
    cases hr : rest with
    | nil =>
      subst hr
      have hs : mkSeg language t p = s := by simpa [createAux] using h
      rw [← hs]
      simp [createAux, mkSeg]
    | cons q rest2 =>
      subst hr
      have hne : createAux language (q :: rest2) (t + segDuration language p) ≠ [] := by
        rw [createAux]
        exact List.cons_ne_nil _ _
      rw [createAux, getLast?_cons_ne _ _ hne] at h
      have := ih (t + segDuration language p) s h
      rw [this]
      have hunfold : createAux language (p :: q :: rest2) t
          = mkSeg language t p :: createAux language (q :: rest2) (t + segDuration language p) := rfl
      rw [hunfold, List.map_cons, List.sum_cons]
      have hdur : (mkSeg language t p).duration = segDuration language p := rfl
      rw [hdur]
      ring

/-- Claim C2: for every list of narration parts and every language the
synchronized segments form a timeline: each segment's end time is its start
time plus its duration, each segment starts exactly where the previous one
ends (no gaps or overlaps), the first segment starts at 0, and the last
segment's end time equals the sum of all segment durations. -/
theorem C2_segment_timeline (parts : List NPart) (language : String) :
    (∀ s ∈ create_synchronized_segments parts language,
       s.end_time = s.start_time + s.duration) ∧
    List.Chain' (fun a b => b.start_time = a.end_time)
      (create_synchronized_segments parts language) ∧
    (∀ s ∈ (create_synchronized_segments parts language).head?, s.start_time = 0) ∧
    (∀ s ∈ (create_synchronized_segments parts language).getLast?,
       s.end_time = ((create_synchronized_segments parts language).map Segment.duration).sum) := by
  refine ⟨fun s h => createAux_end language parts 0 s h,
    createAux_chain language parts 0,
    createAux_head language parts 0, ?_⟩
  intro s h
  have := createAux_last language parts 0 s h
  simpa using this

/-- Witness for C2 at a concrete one-part narration. -/
theorem C2_witness :
    (mkSeg "en" 0 ⟨"title", "Hello world", "Overview"⟩).end_time =
      (mkSeg "en" 0 ⟨"title", "Hello world", "Overview"⟩).start_time +
      (mkSeg "en" 0 ⟨"title", "Hello world", "Overview"⟩).duration :=
  (C2_segment_timeline [⟨"title", "Hello world", "Overview"⟩] "en").1 _
    (List.mem_singleton.mpr rfl)

/-- Each per-part duration is at least one second. -/
theorem segDuration_ge_one (language : String) (p : NPart) : 1 ≤ segDuration language p := by
  unfold segDuration
  have hb : (1 : ℚ) ≤ max 1 (((pyWords p.text).length : ℚ) * (60 / (wpm language : ℚ))) :=
    le_max_left _ _
  split_ifs <;> linarith

/-- Every segment of every run keeps a duration of at least one second. -/
theorem createAux_dur (language : String) :
    ∀ (parts : List NPart) (t : ℚ) (s : Segment), s ∈ createAux language parts t →
      1 ≤ s.duration := by
  intro parts
  induction parts with
  | nil => intro t s h; cases h
  | cons p rest ih =>
    intro t s h
    rcases List.mem_cons.mp h with h | h
    · rw [h]
      exact segDuration_ge_one language p
    · exact ih _ s h

/-- Claim C8: every narration part, including one whose text has zero
words, receives a duration of at least one second, so no emitted segment
has zero or negative length. -/
theorem C8_min_duration (language : String) (parts : List NPart) :
    ∀ s ∈ create_synchronized_segments parts language,
      1 ≤ s.duration ∧ 0 < s.duration := by
  intro s h
  have h1 : 1 ≤ s.duration := createAux_dur language parts 0 s h
  exact ⟨h1, lt_of_lt_of_le one_pos h1⟩

/-- Witness for C8 at a concrete zero-word part. -/
theorem C8_witness :
    1 ≤ (mkSeg "fr" 0 ⟨"bullet", "", "x"⟩).duration ∧
    0 < (mkSeg "fr" 0 ⟨"bullet", "", "x"⟩).duration :=
  C8_min_duration "fr" [⟨"bullet", "", "x"⟩] _ (List.mem_singleton.mpr rfl)

/-- The argsort permutation has one entry per document. -/
theorem argsortAsc_length (sims : List ℚ) : (argsortAsc sims).length = sims.length :=
  ((List.perm_insertionSort _ _).length_eq).trans (List.length_range _)

/-- The argsort output is sorted for the ascending (score, index) order. -/
theorem argsortAsc_sorted (sims : List ℚ) :
    List.Pairwise (rankLE sims) (argsortAsc sims) :=
  List.sorted_insertionSort _ _

/-- The argsort output has no duplicate indices. -/
theorem argsortAsc_nodup (sims : List ℚ) : (argsortAsc sims).Nodup :=
  ((List.perm_insertionSort _ _).symm).nodup (List.nodup_range _)

/-- Claim C3 (amended): for every similarity vector with one score per
document, `top_k_contexts` returns exactly `min k (number of documents)`
results, scores are non-increasing with ties broken by descending document
index, and an empty document list yields an empty result without raising. -/
theorem C3_ranked_retrieval (sims : List ℚ) (docs : List String) (k : ℕ)
    (h : sims.length = docs.length) :
    (top_k_contexts (some sims) docs k).length = min k docs.length ∧
    List.Pairwise
      (fun a b : ℕ × ℚ × String => b.2.1 ≤ a.2.1 ∧ (b.2.1 = a.2.1 → b.1 < a.1))
      (top_k_contexts (some sims) docs k) ∧
    (∀ (simres : Option (List ℚ)) (j : ℕ), top_k_contexts simres [] j = []) := by
  refine ⟨?_, ?_, fun simres j => rfl⟩
  · unfold top_k_contexts
    by_cases hd : docs.isEmpty
    · rw [if_pos hd]
      have hnil : docs = [] := List.isEmpty_iff.mp hd
      simp [hnil]
    · rw [if_neg hd]
      simp [List.length_take, argsortAsc_length, h]
  · unfold top_k_contexts
    by_cases hd : docs.isEmpty
    · rw [if_pos hd]
      exact List.Pairwise.nil
    · rw [if_neg hd]
      apply List.pairwise_map.mpr
      have hsorted : List.Pairwise (fun i j => rankLE sims i j ∧ i ≠ j) (argsortAsc sims) :=
        (argsortAsc_sorted sims).and (argsortAsc_nodup sims)
      have hrev : List.Pairwise (fun i j => rankLE sims j i ∧ j ≠ i)
          ((argsortAsc sims).reverse) := List.pairwise_reverse.mpr hsorted
      have htake := List.Pairwise.sublist (List.take_sublist k _) hrev
      refine htake.imp ?_
      intro i j hij
      obtain ⟨hr, hne⟩ := hij
      rcases hr with h1 | ⟨h1, h1'⟩
      · exact ⟨le_of_lt h1, fun heq => absurd heq (ne_of_lt h1)⟩
      · exact ⟨le_of_eq h1, fun _ => lt_of_le_of_ne h1' hne⟩

/-- Witness for C3 at a concrete two-document corpus. -/
theorem C3_witness :
    (top_k_contexts (some [1, 0]) ["a", "b"] 1).length = min 1 2 :=
  (C3_ranked_retrieval [1, 0] ["a", "b"] 1 rfl).1

/-- Claim C3, counterexample to the tie-break direction as stated.  With
two documents of equal score, `np.argsort(sims)[::-1]` lists the indices in
descending order, so document 1 is returned before document 0: ties are
broken by descending, not ascending, document index. -/
theorem C3_tie_counterexample :
    top_k_contexts (some [1, 1]) ["a", "b"] 2 = [(1, 1, "b"), (0, 1, "a")] ∧
    ¬ List.Pairwise (fun a b : ℕ × ℚ × String => a.2.1 = b.2.1 → a.1 < b.1)
        (top_k_contexts (some [1, 1]) ["a", "b"] 2) := by
  refine ⟨by decide, by decide⟩

/-- Claim C4: when the embedding provider or similarity computation is
unavailable or throws (`simres = none`), `top_k_contexts` returns the first
`k` documents in original corpus order, each with score 0.0; being a total
function of its inputs, the fallback never propagates the failure. -/
theorem C4_error_fallback (docs : List String) (k : ℕ) :
    (top_k_contexts none docs k).length = min k docs.length ∧
    (∀ i, i < min k docs.length →
      (top_k_contexts none docs k)[i]? = some (i, (0 : ℚ), docs.getD i "")) := by
  constructor
  · unfold top_k_contexts
    by_cases hd : docs.isEmpty
    · rw [if_pos hd]
      have hnil : docs = [] := List.isEmpty_iff.mp hd
      simp [hnil]
    · rw [if_neg hd]
      simp [List.length_take, List.enum_length]
  · intro i hi
    unfold top_k_contexts
    by_cases hd : docs.isEmpty
    · exfalso
      have hnil : docs = [] := List.isEmpty_iff.mp hd
      rw [hnil] at hi
      simp at hi
    · rw [if_neg hd, List.getElem?_map, List.getElem?_take,
        if_pos (lt_of_lt_of_le hi (min_le_left _ _)), List.getElem?_enum]
      have hlen : i < docs.length := lt_of_lt_of_le hi (min_le_right _ _)
      rw [List.getElem?_eq_getElem hlen]
      have hgd : docs.getD i "" = docs[i] := List.getD_eq_getElem docs "" hlen
      rw [hgd]
      rfl

/-- Witness for C4 at a concrete three-document corpus. -/
theorem C4_witness :
    (top_k_contexts none ["a", "b", "c"] 2)[1]? = some (1, (0 : ℚ), "b") :=
  (C4_error_fallback ["a", "b", "c"] 2).2 1 (by decide)

/-- A string strips to the empty string exactly when it is blank. -/
theorem pyStrip_empty_iff (s : String) : pyStrip s = "" ↔ isBlank s = true := by
  unfold pyStrip isBlank
  constructor
  · intro h
    have hl : ((s.data.dropWhile Char.isWhitespace).reverse.dropWhile
        Char.isWhitespace).reverse = [] := congrArg String.data h
    rw [List.reverse_eq_nil_iff, List.dropWhile_eq_nil_iff] at hl
    rw [List.all_eq_true]
    intro x hx
    have hsplit := List.takeWhile_append_dropWhile Char.isWhitespace s.data
    rw [← hsplit] at hx
    rcases List.mem_append.mp hx with hx | hx
    · exact List.mem_takeWhile_imp hx
    · exact hl x (List.mem_reverse.mpr hx)
  · intro h
    have h1 : s.data.dropWhile Char.isWhitespace = [] :=
      List.dropWhile_eq_nil_iff.mpr (fun x hx => List.all_eq_true.mp h x hx)
    rw [h1]
    rfl

/-- A character that fails the predicate survives `dropWhile`. -/
theorem mem_dropWhile_not {p : Char → Bool} {l : List Char} {c : Char}
    (hm : c ∈ l) (hc : p c = false) : c ∈ l.dropWhile p := by
  have hsplit := List.takeWhile_append_dropWhile p l
  rw [← hsplit] at hm
  rcases List.mem_append.mp hm with h | h
  · have := List.mem_takeWhile_imp h
    rw [hc] at this
    cases this
  · exact h

/-- Stripping does not change blankness. -/
theorem isBlank_pyStrip (s : String) : isBlank (pyStrip s) = isBlank s := by
  cases hf : isBlank s with
  | true =>
    have h0 : pyStrip s = "" := (pyStrip_empty_iff s).mpr hf
    rw [h0]
    rfl
  | false =>
    have hex : ∃ x ∈ s.data, ¬ Char.isWhitespace x = true := by
      rw [← List.all_eq_false]
      exact hf
    obtain ⟨x, hmem, hxt⟩ := hex
    have hxf : Char.isWhitespace x = false := by
      cases hw : Char.isWhitespace x with
      | true => exact absurd hw hxt
      | false => rfl
    have h1 : x ∈ s.data.dropWhile Char.isWhitespace := mem_dropWhile_not hmem hxf
    have h2 : x ∈ (s.data.dropWhile Char.isWhitespace).reverse := List.mem_reverse.mpr h1
    have h3 : x ∈ (s.data.dropWhile Char.isWhitespace).reverse.dropWhile Char.isWhitespace :=
      mem_dropWhile_not h2 hxf
    have h4 : x ∈ (pyStrip s).data := by
      unfold pyStrip
      exact List.mem_reverse.mpr h3
    unfold isBlank
    rw [List.all_eq_false]
    exact ⟨x, h4, hxt⟩

/-- Blankness of a slide document reduces to blankness of both fields. -/
theorem isBlank_slideDoc (p : String × String) :
    isBlank (slideDoc p) = (isBlank p.1 && isBlank p.2) := by
  show (slideDoc p).data.all Char.isWhitespace = _
  unfold slideDoc
  rw [String.data_append, String.data_append, List.all_append, List.all_append]
  have h1 : ∀ s : String, (pyStrip s).data.all Char.isWhitespace = isBlank s :=
    fun s => isBlank_pyStrip s
  rw [h1, h1]
  have hn : ("\n" : String).data.all Char.isWhitespace = true := by decide
  rw [hn]
  cases isBlank p.1 <;> cases isBlank p.2 <;> rfl

/-- Peeling an `if …​ then none else some` filterMap into filter and map. -/
theorem filterMap_if {α β : Type} (p : α → Prop) [DecidablePred p] (f : α → β) (l : List α) :
    (l.filterMap fun a => if p a then none else some (f a)) =
      (l.filter fun a => !(decide (p a))).map f := by
  induction l with
  | nil => rfl
  | cons a t ih =>
    by_cases h : p a <;> simp [List.filterMap_cons, List.filter_cons, h, ih]

/-- Claim C6 (amended): the corpus holds exactly one document per slide
whose stripped title or stripped content is non-empty (the document being
stripped title, newline, stripped content), followed by one document per QA
record whose stripped question or stripped answer is non-empty; the
document count is the sum of those two counts, and the order — slides first
in slide order, then QA records in log order — is fixed by this equation,
hence identical across repeated calls with the same inputs. -/
theorem C6_corpus_structure (slides qa_logs : List (String × String)) :
    build_corpus slides qa_logs =
      ((slides.filter fun p => !(isBlank p.1 && isBlank p.2)).map slideDoc) ++
      ((qa_logs.filter fun p => !(isBlank p.1 && isBlank p.2)).map qaDoc) ∧
    (build_corpus slides qa_logs).length =
      (slides.filter fun p => !(isBlank p.1 && isBlank p.2)).length +
      (qa_logs.filter fun p => !(isBlank p.1 && isBlank p.2)).length := by
  have hs : (slides.filterMap fun p =>
      if pyStrip (slideDoc p) = "" then none else some (slideDoc p)) =
      (slides.filter fun p => !(isBlank p.1 && isBlank p.2)).map slideDoc := by
    rw [filterMap_if]
    congr 1
    apply List.filter_congr
    intro a _
    have hd : decide (pyStrip (slideDoc a) = "") = (isBlank a.1 && isBlank a.2) := by
      rw [← isBlank_slideDoc]
      simp [pyStrip_empty_iff]
    rw [hd]
  have hq : (qa_logs.filterMap fun p =>
      if pyStrip p.1 = "" ∧ pyStrip p.2 = "" then none else some (qaDoc p)) =
      (qa_logs.filter fun p => !(isBlank p.1 && isBlank p.2)).map qaDoc := by
    rw [filterMap_if]
    congr 1
    apply List.filter_congr
    intro a _
    have hd : decide (pyStrip a.1 = "" ∧ pyStrip a.2 = "") = (isBlank a.1 && isBlank a.2) := by
      simp [pyStrip_empty_iff]
    rw [hd]
  have hmain : build_corpus slides qa_logs =
      ((slides.filter fun p => !(isBlank p.1 && isBlank p.2)).map slideDoc) ++
      ((qa_logs.filter fun p => !(isBlank p.1 && isBlank p.2)).map qaDoc) := by
    unfold build_corpus
    rw [hs, hq]
  refine ⟨hmain, ?_⟩
  rw [hmain]
  simp [List.length_append, List.length_map]

/-- Claim C6, counterexample to the "non-empty" condition as stated: a
slide whose title is the non-empty whitespace string " " (content empty)
is skipped by `build_corpus`, which strips before testing, so the claimed
count — one document for every slide whose raw title or content is a
non-empty string — overshoots the actual corpus size. -/
theorem C6_blank_counterexample :
    (build_corpus [(" ", "")] []).length ≠
      (([(" ", "")] : List (String × String)).filter fun p =>
        !(p.1 == "" && p.2 == "")).length +
      (([] : List (String × String)).filter fun p =>
        !(p.1 == "" && p.2 == "")).length := by
  decide

/-- Claim C7, evidence of the divergence: for a one-slide presentation and
`slide_index = -1`, the Q&A route rejects with "not found" but the
narration route's guard `slide_index >= len(slides)` does not fire, and
Python's negative indexing then silently selects the last slide.  Both
routes do reject an index that is too large. -/
theorem C7_negative_index_evidence :
    narrate_rejects (-1) 1 = false ∧
    qa_rejects (-1) 1 = true ∧
    pyIndex ["only slide"] (-1) = some "only slide" ∧
    narrate_rejects 1 1 = true ∧
    qa_rejects 1 1 = true := by
  refine ⟨by decide, by decide, by decide, by decide, by decide⟩

/-- Claim C10, counterexample to the source-equals-target identity as
stated.  The cache key is the md5 of `text + "_" + source + "_" + target`,
which is ambiguous: a first call translating "x" from "en" to the
(underscore-bearing) target "fr_fr" caches its fallback result under the
key string "x_en_fr_fr"; a second call for text "x_en" with source = target
= "fr" builds the same key string, hits the cache before the
source-equals-target check, and returns the cached "[fr_fr] x" instead of
its own text "x_en". -/
theorem C10_cache_counterexample :
    (translate_call (fun _ _ _ => none)
      ((translate_call (fun _ _ _ => none) [] "x" "fr_fr" "en").2) "x_en" "fr" "fr").1 =
      "[fr_fr] x" ∧
    (translate_call (fun _ _ _ => none)
      ((translate_call (fun _ _ _ => none) [] "x" "fr_fr" "en").2) "x_en" "fr" "fr").1 ≠
      "x_en" := by
  refine ⟨by decide, by decide⟩

/-- Claim C10 (amended): `translate_text` returns its input unchanged when
the text is empty or whitespace-only (for every cache state, provider,
source and target), and it returns the original text whenever the given or
auto-detected source language equals the target language, provided the
translation cache holds no entry under the call's cache key (as is the case
in a fresh process, or when all language codes are underscore-free). -/
theorem C10_translate_identity (provider : String → String → String → Option String)
    (cache : List (String × String)) (text target source : String) :
    (isBlank text = true → (translate_call provider cache text target source).1 = text) ∧
    (cache.lookup (text ++ "_" ++ source ++ "_" ++ target) = none →
      (if source = "auto" then detect_language text else source) = target →
      (translate_call provider cache text target source).1 = text) := by
  constructor
  · intro h
    unfold translate_call
    rw [if_pos h]
  · intro hl hs
    by_cases hb : isBlank text
    · simp only [translate_call, if_pos hb]
    · simp only [translate_call, if_neg hb, hl, if_pos hs]

/-- Witness for C10: identity on a blank text and on an `en` to `en` call
with an empty cache. -/
theorem C10_witness :
    (translate_call (fun _ _ _ => none) [] "hello" "en" "en").1 = "hello" ∧
    (translate_call (fun _ _ _ => none) [] "  " "fr" "auto").1 = "  " :=
  ⟨(C10_translate_identity (fun _ _ _ => none) [] "hello" "en" "en").2 rfl rfl,
   (C10_translate_identity (fun _ _ _ => none) [] "  " "fr" "auto").1 (by decide)⟩

/-- A string with non-empty character data is not the empty string. -/
theorem str_ne_empty {s : String} (h : s.data ≠ []) : s ≠ "" := by
  intro he
  rw [he] at h
  exact h rfl

/-- A string with empty character data is the empty string. -/
theorem str_empty_of_data {s : String} (h : s.data = []) : s = "" := String.ext h

/-- Appending to a non-empty string keeps it non-empty. -/
theorem str_app_ne (a b : String) (ha : a ≠ "") : (a ++ b) ≠ "" := by
  intro h
  have hd : (a ++ b).data = [] := congrArg String.data h
  rw [String.data_append] at hd
  exact ha (str_empty_of_data (List.append_eq_nil.mp hd).1)

/-- The provider-failure marker string is never empty. -/
theorem bracket_ne_empty (target text : String) : ("[" ++ target ++ "] " ++ text) ≠ "" :=
  str_app_ne _ _ (str_app_ne _ _ (str_app_ne _ _ (by decide)))

/-- A non-empty text never translates to the empty string: the source
either returns the text itself, a truthy provider response, or the
`[target] text` marker. -/
theorem translate_ne_empty (provider : String → String → String → Option String)
    (text target source : String) (h : text ≠ "") :
    translate_text provider text target source ≠ "" := by
  unfold translate_text translate_call
  by_cases hb : isBlank text
  · simpa [if_pos hb] using h
  · simp only [if_neg hb, List.lookup]
    by_cases hs : (if source = "auto" then detect_language text else source) = target
    · simpa [if_pos hs] using h
    · simp only [if_neg hs]
      cases hp : provider text (if source = "auto" then detect_language text else source)
          target with
      | none => simpa [hp] using bracket_ne_empty target text
      | some s =>
        by_cases he : s = ""
        · simpa [hp, he] using bracket_ne_empty target text
        · simpa [hp, he] using he

/-- A character other than an opening brace passes through the format
substitution unchanged. -/
theorem formatAux_cons_ne (t c : List Char) (n : ℕ) (x : Char) (xs : List Char)
    (hx : x ≠ '\x7b') :
    formatAux t c (n + 1) (x :: xs) = x :: formatAux t c n xs := by
  have h1 : ('\x7b' == x) = false := beq_eq_false_iff_ne.mpr (fun he => hx he.symm)
  have hT : ("\x7btitle\x7d" : String).data =
      '\x7b' :: 't' :: 'i' :: 't' :: 'l' :: 'e' :: '\x7d' :: [] := rfl
  have hC : ("\x7bcontent\x7d" : String).data =
      '\x7b' :: 'c' :: 'o' :: 'n' :: 't' :: 'e' :: 'n' :: 't' :: '\x7d' :: [] := rfl
  simp [formatAux, hT, hC, leadsWith, h1]

/-- Formatting a template whose first character is not a brace yields a
non-empty string. -/
theorem pyFormat2_ne (s t c : String)
    (h : ∃ x xs, s.data = x :: xs ∧ x ≠ '\x7b') : pyFormat2 s t c ≠ "" := by
  obtain ⟨x, xs, hs, hx⟩ := h
  unfold pyFormat2
  rw [hs]
  simp only [List.length_cons]
  rw [formatAux_cons_ne _ _ _ _ _ hx]
  exact str_ne_empty (by simp)

/-- Every English answer template opens with a printable word, not a
placeholder. -/
theorem en_tpl_head (q : String) :
    ∃ x xs, (en_tpl q).data = x :: xs ∧ x ≠ '\x7b' := by
  unfold en_tpl
  split_ifs <;> exact ⟨_, _, rfl, by decide⟩

/-- Every Hindi answer template opens with a literal character. -/
theorem hi_tpl_head (q : String) :
    ∃ x xs, (hi_tpl q).data = x :: xs ∧ x ≠ '\x7b' := by
  unfold hi_tpl
  split_ifs <;> exact ⟨_, _, rfl, by decide⟩

/-- Every Spanish answer template opens with a literal character. -/
theorem es_tpl_head (q : String) :
    ∃ x xs, (es_tpl q).data = x :: xs ∧ x ≠ '\x7b' := by
  unfold es_tpl
  split_ifs <;> exact ⟨_, _, rfl, by decide⟩

/-- Every French answer template opens with a literal character. -/
theorem fr_tpl_head (q : String) :
    ∃ x xs, (fr_tpl q).data = x :: xs ∧ x ≠ '\x7b' := by
  unfold fr_tpl
  split_ifs <;> exact ⟨_, _, rfl, by decide⟩

/-- Every German answer template opens with a literal character. -/
theorem de_tpl_head (q : String) :
    ∃ x xs, (de_tpl q).data = x :: xs ∧ x ≠ '\x7b' := by
  unfold de_tpl
  split_ifs <;> exact ⟨_, _, rfl, by decide⟩

/-- For the built-in template languages, the selected template opens with a
literal character. -/
theorem tplFor_head (provider : String → String → String → Option String)
    (language q : String)
    (h : language = "en" ∨ language = "hi" ∨ language = "es" ∨ language = "fr" ∨
      language = "de") :
    ∃ x xs, (tplFor provider language q).data = x :: xs ∧ x ≠ '\x7b' := by
  rcases h with h | h | h | h | h <;> subst h
  · exact en_tpl_head q
  · show ∃ x xs, (hi_tpl q).data = x :: xs ∧ x ≠ '\x7b'
    exact hi_tpl_head q
  · show ∃ x xs, (es_tpl q).data = x :: xs ∧ x ≠ '\x7b'
    exact es_tpl_head q
  · show ∃ x xs, (fr_tpl q).data = x :: xs ∧ x ≠ '\x7b'
    exact fr_tpl_head q
  · show ∃ x xs, (de_tpl q).data = x :: xs ∧ x ≠ '\x7b'
    exact de_tpl_head q

/-- Truncation to `n` characters caps the length at `n`. -/
theorem pyLen_pyTake (n : ℕ) (s : String) : pyLen (pyTake n s) ≤ n := by
  simp only [pyLen, pyTake, List.length_take]
  omega

/-- Truncation with a positive bound keeps a non-empty string non-empty. -/
theorem pyTake_ne (n : ℕ) (hn : 0 < n) (s : String) (h : s ≠ "") :
    pyTake n s ≠ "" := by
  unfold pyTake
  cases hd : s.data with
  | nil => exact absurd (str_empty_of_data hd) h
  | cons a l =>
    cases n with
    | zero => cases hn
    | succ m =>
      exact str_ne_empty (by simp)

/-- The fallback answer of the Answer Composer is never empty, for any
provider behaviour and any language. -/
theorem fallback_ne_empty (provider : String → String → String → Option String)
    (title content language : String) :
    generate_fallback_answer provider title content language ≠ "" := by
  unfold generate_fallback_answer
  split_ifs
  · exact str_app_ne _ _ (str_app_ne _ _ (str_app_ne _ _ (by decide)))
  · exact str_app_ne _ _ (str_app_ne _ _ (str_app_ne _ _ (by decide)))
  · exact str_app_ne _ _ (str_app_ne _ _ (str_app_ne _ _ (by decide)))
  · exact str_app_ne _ _ (str_app_ne _ _ (str_app_ne _ _ (by decide)))
  · exact str_app_ne _ _ (str_app_ne _ _ (str_app_ne _ _ (by decide)))
  · exact translate_ne_empty provider _ language "auto"
      (str_app_ne _ _ (str_app_ne _ _ (str_app_ne _ _ (by decide))))

/-- For the built-in template languages the composed answer is non-empty
for every provider behaviour, retrieval outcome and question. -/
theorem composed_ne_empty (provider : String → String → String → Option String)
    (simres : Option (List ℚ)) (question slideTitle : String)
    (slides qa_logs : List (String × String)) (language : String)
    (h : language = "en" ∨ language = "hi" ∨ language = "es" ∨ language = "fr" ∨
      language = "de") :
    composed_answer provider simres question slideTitle slides qa_logs language ≠ "" := by
  simp only [composed_answer]
  split_ifs <;>
    first
      | exact translate_ne_empty provider _ language "en"
          (pyFormat2_ne _ _ _ (tplFor_head provider language _ h))
      | exact pyFormat2_ne _ _ _ (tplFor_head provider language _ h)

/-- Claim C5 (amended): the Answer Composer always returns at most 3000
characters; when the try-block fails it returns exactly the fallback answer
built from the slide's own title and its content truncated to 400
characters, and that fallback is non-empty for every language; on the
success path the answer is non-empty whenever the requested language is
one of the built-in template languages (en, hi, es, fr, de). -/
theorem C5_answer_fallback (provider : String → String → String → Option String)
    (simres : Option (List ℚ)) (ragExc : Bool) (question : String)
    (slide : String × String) (slides qa_logs : List (String × String))
    (language tone : String) :
    pyLen (answer_question provider simres ragExc question slide slides qa_logs
      language tone) ≤ 3000 ∧
    (ragExc = true →
      answer_question provider simres ragExc question slide slides qa_logs language tone =
        pyTake 3000 (generate_fallback_answer provider (effTitle slide.1) slide.2 language) ∧
      answer_question provider simres ragExc question slide slides qa_logs
        language tone ≠ "") ∧
    ((language = "en" ∨ language = "hi" ∨ language = "es" ∨ language = "fr" ∨
        language = "de") →
      answer_question provider simres ragExc question slide slides qa_logs
        language tone ≠ "") := by
  cases ragExc with
  | true =>
    have heq : answer_question provider simres true question slide slides qa_logs
        language tone =
        pyTake 3000 (generate_fallback_answer provider (effTitle slide.1) slide.2
          language) := rfl
    refine ⟨?_, fun _ => ⟨heq, ?_⟩, fun _ => ?_⟩
    · rw [heq]
      exact pyLen_pyTake _ _
    · rw [heq]
      exact pyTake_ne _ (by norm_num) _ (fallback_ne_empty _ _ _ _)
    · rw [heq]
      exact pyTake_ne _ (by norm_num) _ (fallback_ne_empty _ _ _ _)
  | false =>
    have heq : answer_question provider simres false question slide slides qa_logs
        language tone =
        pyTake 3000 (composed_answer provider simres question (effTitle slide.1) slides
          qa_logs language) := rfl
    refine ⟨?_, fun hc => absurd hc Bool.false_ne_true, fun hlang => ?_⟩
    · rw [heq]
      exact pyLen_pyTake _ _
    · rw [heq]
      exact pyTake_ne _ (by norm_num) _
        (composed_ne_empty provider simres question _ slides qa_logs language hlang)

/-- Witness for C5: a concrete failing call in English returns the
non-empty fallback answer. -/
theorem C5_witness :
    answer_question (fun _ _ _ => none) none true "why" ("T", "Body text") [] []
      "en" "formal" ≠ "" :=
  ((C5_answer_fallback (fun _ _ _ => none) none true "why" ("T", "Body text") [] []
    "en" "formal").2.1 rfl).2

/-- Claim C5, counterexample to unconditional non-emptiness.  For the
language "it" — not in the built-in template table — the source translates
the English template and then formats it.  A provider that answers every
translation request with the bare placeholder string, combined with a deck
whose corpus is empty (so the retrieved context is empty), makes the
composed answer the empty string: `answer_question` returns "". -/
theorem C5_empty_counterexample :
    answer_question (fun _ _ _ => some "\x7bcontent\x7d") none false "What" ("", "")
      [("", "")] [] "it" "formal" = "" := by
  decide
